import Mathlib

/-!
Verification of the finsight data-reconciliation core
(`plugins/data-reconciliation/scripts/reconcile_engine.py` and
`plugins/data-reconciliation/scripts/data_profiler.py`) against its
natural-language specification.

Cell values are modelled as a tagged union (`Value`): pandas nulls
(`None` / `NaN` / `NaT`) collapse to `Value.null`, Python numbers to
`Value.num` over `ℚ`, strings to `Value.str`, parsed datetimes to
`Value.date` (an abstract integer timestamp), booleans to `Value.bool`.
External library behaviour (the `strptime`-style parser behind
`pd.to_datetime(format=...)`) is passed in as a function parameter.
-/

namespace FinSight

/-- A cell value as inspected at runtime by the engine. -/
inductive Value where
  | null : Value
  | num (q : ℚ) : Value
  | str (s : String) : Value
  | date (d : Int) : Value
  | bool (b : Bool) : Value
deriving DecidableEq, Repr

/-- Model of `pd.isna` on a cell: only the null tag is missing data. -/
def Value.isna : Value → Bool
  | .null => true
  | _ => false

/-- Model of `astype(str)` on a single cell.  pandas renders missing data as the
string `nan`; the rendering of numbers and dates abstracts the library's
textual representation. -/
def pyStr : Value → String
  | .null => "nan"
  | .str s => s
  | .num q => toString q
  | .date d => toString d
  | .bool b => if b then "True" else "False"

/-- A pandas `.str` accessor method applied to one cell of an
object-dtype column: acts on strings, and maps any non-string element
(including missing data) to `NaN`. -/
def strStep (f : String → String) : Value → Value
  | .str s => .str (f s)
  | _ => .null

/-- One cell under `pd.to_datetime(col, format=fmt, errors='coerce')`:
strings that parse become datetimes, anything unparseable is coerced to
`NaT`; already-datetime cells pass through. -/
def dateCoerce (parse : String → Option Int) : Value → Value
  | .str s =>
      match parse s with
      | some d => .date d
      | none => .null
  | .date d => .date d
  | _ => .null

/-- Whether a character list starts with the given needle. -/
def startsWithChars : List Char → List Char → Bool
  | _, [] => true
  | [], _ :: _ => false
  | h :: t, n :: ns => h == n && startsWithChars t ns

/-- Whether a character list contains the needle as a contiguous
sublist. -/
def containsChars : List Char → List Char → Bool
  | [], needle => needle.isEmpty
  | h :: t, needle => startsWithChars (h :: t) needle || containsChars t needle

/-- Python's substring test `needle in hay`. -/
def strContains (hay needle : String) : Bool :=
  containsChars hay.toList needle.toList

/-- Embedding of `ReconciliationConfig` (reconcile_engine.py).  `tolerance` is the
per-column numeric tolerance mapping (`None`-vs-`{}` is collapsed to the
empty association list, as `ReconciliationEngine.__init__` does with
`config.tolerance or {}`). -/
structure ReconciliationConfig where
  source_name : String
  target_name : String
  key_columns : List String
  compare_columns : List String
  tolerance : List (String × ℚ) := []
  ignore_case : Bool := true
  trim_whitespace : Bool := true
  date_format : Option String := none
deriving DecidableEq, Repr

/-- Embedding of `ReconciliationConfig.__post_init__`: the validation performed at
construction time.  Empty strings and empty lists are falsy in Python,
so `not self.source_name` etc. test exactly for emptiness.  The
key/compare overlap check only logs a warning and never rejects. -/
def configValidate (c : ReconciliationConfig) : Except String ReconciliationConfig :=
  if c.source_name = "" ∨ c.target_name = "" then
    .error "source_name and target_name are required"
  else if c.key_columns = [] then
    .error "key_columns must contain at least one column"
  else if c.compare_columns = [] then
    .error "compare_columns must contain at least one column"
  else
    .ok c

/-- Model of `tolerance.get(column, 0)`. -/
def lookupTol (tol : List (String × ℚ)) (column : String) : ℚ :=
  (tol.lookup column).getD 0

/-- Embedding of `ReconciliationEngine.compare_values`: null handling first, then the
numeric branch with per-column tolerance, then plain equality. -/
def compare_values (tol : List (String × ℚ)) (val1 val2 : Value) (column : String) :
    Bool × Option ℚ :=
  if val1.isna && val2.isna then (true, none)
  else if val1.isna || val2.isna then (false, none)
  else
    match val1, val2 with
    | .num a, .num b => (decide (|a - b| ≤ lookupTol tol column), some |a - b|)
    | v1, v2 => (decide (v1 = v2), none)

/-- One row of a dataframe: the association of column names to cells. -/
abbrev Row := List (String × Value)

/-- Cell access `row[col]` for a row whose columns are known to be present; absent
columns default to missing data. -/
def cellOf (r : Row) (c : String) : Value :=
  (r.lookup c).getD .null

/-- A dataframe in row-major form.  `colNames` is the column index and
`textCols` records which columns have pandas `object` (free-form text)
dtype — the columns `select_dtypes(include=['object'])` returns. -/
structure DF where
  colNames : List String
  textCols : List String
  rows : List Row
deriving DecidableEq, Repr

/-- The text transformations `normalize_data` applies to one cell of an
object-dtype column before date parsing: `.str.strip()` when
`trim_whitespace` is set, then `.str.lower()` when `ignore_case` is set. -/
def normTextCell (cfg : ReconciliationConfig) (v : Value) : Value :=
  let v1 := if cfg.trim_whitespace then strStep String.trim v else v
  if cfg.ignore_case then strStep String.toLower v1 else v1

/-- Whether `if self.config.date_format:` is taken: `None` and the empty
string are both falsy in Python. -/
def dateFormatSet (cfg : ReconciliationConfig) : Bool :=
  match cfg.date_format with
  | some fmt => fmt ≠ ""
  | none => false

/-- One named column of a row-major dataframe, as the per-column
`pd.to_datetime(df[col], ...)` call sees it. -/
def colCells (rows : List Row) (c : String) : List Value :=
  rows.map (fun r => cellOf r c)

/-- The rows after the trim and lower-case steps of `normalize_data`,
before the date-parsing step. -/
def textStepRows (cfg : ReconciliationConfig) (df : DF) : List Row :=
  df.rows.map (fun r => r.map (fun p =>
    if p.1 ∈ df.textCols then (p.1, normTextCell cfg p.2) else p))

/-- Embedding of `ReconciliationEngine.normalize_data`: trim, lower-case, then
attempt date parsing, each applied to every object-dtype column;
non-text columns are untouched.  The date step is wrapped per column in
a bare `try/except: pass`: the library predicate `raises fmt cells`
says whether the whole `pd.to_datetime` call for that column raises
(reachable even with `errors='coerce'`, e.g. for an invalid format
directive) — then the column is left as-is; otherwise the call returns
the column with every cell coerced by `dateCoerce`. -/
def normalize_data (parse : String → String → Option Int)
    (raises : String → List Value → Bool)
    (cfg : ReconciliationConfig) (df : DF) : DF :=
  { df with
    rows :=
      match cfg.date_format with
      | some fmt =>
          if fmt = "" then textStepRows cfg df
          else
            (textStepRows cfg df).map (fun r => r.map (fun p =>
              if p.1 ∈ df.textCols &&
                  !raises fmt (colCells (textStepRows cfg df) p.1) then
                (p.1, dateCoerce (parse fmt) p.2)
              else p))
      | none => textStepRows cfg df }

/-- Embedding of `ReconciliationEngine.create_composite_key` for one row: stringify
each key-column value and join with a literal `|`, in key-column order. -/
def create_composite_key (key_columns : List String) (r : Row) : String :=
  String.intercalate "|" (key_columns.map (fun c => pyStr (cellOf r c)))

/-- The composite keys of a dataframe after normalization, one per row
in row order (the `_key` column). -/
def keyList (parse : String → String → Option Int)
    (raises : String → List Value → Bool)
    (cfg : ReconciliationConfig) (df : DF) : List String :=
  (normalize_data parse raises cfg df).rows.map (create_composite_key cfg.key_columns)

/-- Model of `set(df['_key'])`: the distinct composite keys of a side. -/
def keySet (parse : String → String → Option Int)
    (raises : String → List Value → Bool)
    (cfg : ReconciliationConfig) (df : DF) : Finset String :=
  (keyList parse raises cfg df).toFinset

/-- Embedding of `ReconciliationEngine.validate_dataframes`: both dataframes
non-empty and all key/compare columns present on both sides. -/
def validate_dataframes (cfg : ReconciliationConfig) (source_df target_df : DF) :
    Except String Unit :=
  if source_df.rows = [] then .error "Source dataframe is empty"
  else if target_df.rows = [] then .error "Target dataframe is empty"
  else if ¬ cfg.key_columns.all (· ∈ source_df.colNames) then
    .error "Key columns missing in source"
  else if ¬ cfg.key_columns.all (· ∈ target_df.colNames) then
    .error "Key columns missing in target"
  else if ¬ cfg.compare_columns.all (· ∈ source_df.colNames) then
    .error "Compare columns missing in source"
  else if ¬ cfg.compare_columns.all (· ∈ target_df.colNames) then
    .error "Compare columns missing in target"
  else .ok ()

/-- One mismatch record: composite key, column, the original
(pre-normalization) values on both sides, and the numeric difference
when both values were numeric. -/
structure Mismatch where
  key : String
  column : String
  source_value : Value
  target_value : Value
  difference : Option ℚ
deriving DecidableEq, Repr

/-- The `summary` mapping of `reconcile` (the wall-clock
`processing_time_seconds` field is not modelled). -/
structure Summary where
  total_source_records : Nat
  total_target_records : Nat
  matched_records : Nat
  unmatched_source_records : Nat
  unmatched_target_records : Nat
  mismatched_values : Nat
  match_rate : ℚ
  accuracy_rate : ℚ
  source_duplicate_keys : Nat
  target_duplicate_keys : Nat
deriving DecidableEq, Repr

/-- Embedding of `ReconciliationResult`, together with the key partition `reconcile`
computes on the way (the matched / unmatched-source / unmatched-target
composite-key sets). -/
structure ReconciliationResult where
  matchedKeys : Finset String
  unmatchedSourceKeys : Finset String
  unmatchedTargetKeys : Finset String
  matched_count : Nat
  unmatched_source : List Row
  unmatched_target : List Row
  mismatches : List Mismatch
  summary : Summary
deriving DecidableEq

/-- Model of `df[norm['_key'] == key].iloc[0]`: the first row (in original row
order) of `rows` whose composite key is `key`; rows and their keys are
passed as position-aligned pairs. -/
def firstRowWithKey (pairs : List (Row × String)) (key : String) : Row :=
  ((pairs.find? (fun p => p.2 = key)).map Prod.fst).getD []

/-- The mismatch records one matched key contributes: one record per
compare column on which the (normalized) first source row and first
target row for that key disagree, carrying the original values. -/
def mismatchesForKey (cfg : ReconciliationConfig)
    (sNormPairs tNormPairs sOrigPairs tOrigPairs : List (Row × String))
    (key : String) : List Mismatch :=
  cfg.compare_columns.filterMap (fun col =>
    if (compare_values cfg.tolerance
          (cellOf (firstRowWithKey sNormPairs key) col)
          (cellOf (firstRowWithKey tNormPairs key) col) col).1 then none
    else
      some { key := key, column := col,
             source_value := cellOf (firstRowWithKey sOrigPairs key) col,
             target_value := cellOf (firstRowWithKey tOrigPairs key) col,
             difference := (compare_values cfg.tolerance
               (cellOf (firstRowWithKey sNormPairs key) col)
               (cellOf (firstRowWithKey tNormPairs key) col) col).2 })

/-- The body of `ReconciliationEngine.reconcile` after validation has
passed.  The matched-key set is iterated in an unspecified order in the
reference (a Python `set`); sorted order stands in for that iteration
order — every count and set in the result is order-independent. -/
def reconcileCore (parse : String → String → Option Int)
    (raises : String → List Value → Bool)
    (cfg : ReconciliationConfig) (source_df target_df : DF) : ReconciliationResult :=
  let sKeysList := keyList parse raises cfg source_df
  let tKeysList := keyList parse raises cfg target_df
  let source_keys := sKeysList.toFinset
  let target_keys := tKeysList.toFinset
  let matched_keys := source_keys ∩ target_keys
  let unmatched_source_keys := source_keys \ target_keys
  let unmatched_target_keys := target_keys \ source_keys
  let sOrigPairs := source_df.rows.zip sKeysList
  let tOrigPairs := target_df.rows.zip tKeysList
  let sNormPairs := (normalize_data parse raises cfg source_df).rows.zip sKeysList
  let tNormPairs := (normalize_data parse raises cfg target_df).rows.zip tKeysList
  let unmatched_source := (sOrigPairs.filter (fun p => p.2 ∈ unmatched_source_keys)).map Prod.fst
  let unmatched_target := (tOrigPairs.filter (fun p => p.2 ∈ unmatched_target_keys)).map Prod.fst
  let mismatches := (matched_keys.sort (· ≤ ·)).flatMap
    (mismatchesForKey cfg sNormPairs tNormPairs sOrigPairs tOrigPairs)
  { matchedKeys := matched_keys
    unmatchedSourceKeys := unmatched_source_keys
    unmatchedTargetKeys := unmatched_target_keys
    matched_count := matched_keys.card
    unmatched_source := unmatched_source
    unmatched_target := unmatched_target
    mismatches := mismatches
    summary :=
      { total_source_records := source_df.rows.length
        total_target_records := target_df.rows.length
        matched_records := matched_keys.card
        unmatched_source_records := unmatched_source_keys.card
        unmatched_target_records := unmatched_target_keys.card
        mismatched_values := mismatches.length
        match_rate := (matched_keys.card : ℚ) / (max source_keys.card 1 : ℚ) * 100
        accuracy_rate :=
          if 0 < matched_keys.card then
            ((matched_keys.card : ℚ) - (mismatches.length : ℚ))
              / (max matched_keys.card 1 : ℚ) * 100
          else 0
        source_duplicate_keys := sKeysList.length - source_keys.card
        target_duplicate_keys := tKeysList.length - target_keys.card } }

/-- Embedding of `ReconciliationEngine.reconcile`: validate, then run the core. -/
def reconcile (parse : String → String → Option Int)
    (raises : String → List Value → Bool)
    (cfg : ReconciliationConfig) (source_df target_df : DF) :
    Except String ReconciliationResult :=
  match validate_dataframes cfg source_df target_df with
  | .error e => .error e
  | .ok _ => .ok (reconcileCore parse raises cfg source_df target_df)

/-- Embedding of `IntelligentDataProfiler._recommend_for_key` (data_profiler.py):
key-suitability of a column from its profiled statistics.  Percentages
are on the 0–100 scale.  The duplicate-issue test is Python's
substring test `'Duplicate' in issue`. -/
def _recommend_for_key (is_unique : Bool) (inferred_type : String)
    (null_pct unique_pct : ℚ) (issues : List String) : Bool :=
  if ¬ is_unique ∨ unique_pct < 95 then false
  else if null_pct > 5 then false
  else if inferred_type = "id" then true
  else if inferred_type = "text" ∧ issues.length > 0 then false
  else if issues.any (fun issue => strContains issue "Duplicate") then false
  else true

/-- The key-suitability flag as `profile_column` computes it: the
`is_unique` argument is `unique_percentage >= self.min_uniqueness_for_key`
with `min_uniqueness_for_key = 0.95` compared against the 0–100-scale
percentage. -/
def profileRecommended (inferred_type : String) (null_pct unique_pct : ℚ)
    (issues : List String) : Bool :=
  _recommend_for_key (decide ((0.95 : ℚ) ≤ unique_pct)) inferred_type
    null_pct unique_pct issues

/-- The fields of `ColumnProfile` the strategy advisor reads. -/
structure ColumnProfile where
  null_percentage : ℚ := 0
  unique_percentage : ℚ := 0
  inferred_type : String := "unknown"
  issues : List String := []
deriving DecidableEq, Repr

/-- The fields of `DatasetProfile` the strategy advisor reads:
`column_profiles` (an insertion-ordered mapping, modelled as an
association list) and the ranked candidate keys. -/
structure DatasetProfile where
  column_profiles : List (String × ColumnProfile)
  candidate_key_columns : List (List String)
deriving DecidableEq, Repr

/-- Lookup `profile.column_profiles[col].unique_percentage` (0 when absent;
the advisor only reads columns known to be present). -/
def uniquePctOf (ps : List (String × ColumnProfile)) (c : String) : ℚ :=
  ((ps.lookup c).map ColumnProfile.unique_percentage).getD 0

/-- Lookup `profile.column_profiles[col].inferred_type`. -/
def inferredTypeOf (ps : List (String × ColumnProfile)) (c : String) : String :=
  ((ps.lookup c).map ColumnProfile.inferred_type).getD "unknown"

/-- Model of `common_cols = source_cols & target_cols`.  The reference holds this
as a Python `set` whose iteration order is unspecified; source column
order stands in for that enumeration order. -/
def commonCols (sp tp : DatasetProfile) : List String :=
  (sp.column_profiles.map Prod.fst).filter
    (fun c => c ∈ tp.column_profiles.map Prod.fst)

/-- The strategy fields `suggest_reconciliation_strategy` computes that
the claims are about. -/
structure Strategy where
  recommended_key_columns : List String
  recommended_compare_columns : List String
  recommended_tolerance : List (String × ℚ)
deriving DecidableEq, Repr

/-- The key-selection logic of `suggest_reconciliation_strategy`: the
first stored source candidate key whose columns are all common and all
above 90% distinct in the target, else the first common column above
80% distinct in both profiles, else empty. -/
def selectRecommendedKey (sp tp : DatasetProfile) (common_cols : List String) :
    List String :=
  match sp.candidate_key_columns.filter (fun source_key =>
      source_key.all (fun col => col ∈ common_cols) &&
      source_key.all (fun col =>
        if (tp.column_profiles.lookup col).isSome then
          decide (uniquePctOf tp.column_profiles col > 90)
        else true)) with
  | k :: _ => k
  | [] =>
      match common_cols.filter (fun col =>
        decide (uniquePctOf sp.column_profiles col > 80) &&
        decide (uniquePctOf tp.column_profiles col > 80)) with
      | c :: _ => [c]
      | [] => []

/-- Embedding of `IntelligentDataProfiler.suggest_reconciliation_strategy`: common
columns, key selection (ranked source candidates first, then the
high-uniqueness fallback), compare-column selection capped at 10, and
tolerance assignment over the full uncapped candidate list. -/
def suggest_reconciliation_strategy (sp tp : DatasetProfile) : Except String Strategy :=
  let common_cols := commonCols sp tp
  if common_cols = [] then
    .error "No common columns found between datasets"
  else
    let recommended_key := selectRecommendedKey sp tp common_cols
    let compare_candidates := common_cols.filter (fun col =>
      col ∉ recommended_key &&
      inferredTypeOf sp.column_profiles col ∈
        ["numeric", "numeric_amount", "date", "category"])
    let tolerance :=
      (compare_candidates.filter
        (fun col => inferredTypeOf sp.column_profiles col = "numeric_amount")).map
        (fun col => (col, (1 : ℚ) / 100))
    .ok { recommended_key_columns := recommended_key
          recommended_compare_columns := compare_candidates.take 10
          recommended_tolerance := tolerance }

/-! ## Theorems -/

/-- C2: for numeric values `a`, `b` and the configured tolerance `t` of a
column (`t = 0` when the column has no tolerance entry), `compare_values`
reports a match if and only if `|a - b| ≤ t` — inclusive at the boundary
`|a - b| = t` — and the recorded difference is exactly `|a - b|`. -/
theorem compare_values_numeric_tolerance (tol : List (String × ℚ)) (a b : ℚ)
    (column : String) :
    ((compare_values tol (.num a) (.num b) column).1 = true ↔
      |a - b| ≤ lookupTol tol column) ∧
    (compare_values tol (.num a) (.num b) column).2 = some |a - b| := by
  constructor
  · simp [compare_values, Value.isna]
  · simp [compare_values, Value.isna]

/-- C3: `compare_values` on two nulls is a match with no difference
recorded; on exactly one null (either side) it is a mismatch with no
numeric difference recorded. -/
theorem compare_values_null_handling (tol : List (String × ℚ)) (column : String)
    (v : Value) (hv : v.isna = false) :
    compare_values tol .null .null column = (true, none) ∧
    compare_values tol .null v column = (false, none) ∧
    compare_values tol v .null column = (false, none) := by
  refine ⟨rfl, ?_, ?_⟩ <;> cases v <;> simp_all [compare_values, Value.isna]

/-- Witness for C3 at a concrete non-null value. -/
theorem compare_values_null_handling_witness :
    compare_values [] .null .null "amt" = (true, none) ∧
    compare_values [] .null (.num 1) "amt" = (false, none) ∧
    compare_values [] (.num 1) .null "amt" = (false, none) :=
  compare_values_null_handling [] "amt" (.num 1) rfl

/-- C5: constructing a `ReconciliationConfig` fails exactly when the
source name or target name is empty or the key-column or compare-column
list is empty; a column appearing in both the key list and the compare
list is permitted (construction still succeeds). -/
theorem configValidate_rejects_iff (c : ReconciliationConfig) :
    ((∃ e, configValidate c = .error e) ↔
      (c.source_name = "" ∨ c.target_name = "" ∨
        c.key_columns = [] ∨ c.compare_columns = [])) ∧
    (∀ col, col ∈ c.key_columns → col ∈ c.compare_columns →
      c.source_name ≠ "" → c.target_name ≠ "" →
      configValidate c = .ok c) := by
  constructor
  · unfold configValidate
    split_ifs with h1 h2 h3
    · exact ⟨fun _ => by tauto, fun _ => ⟨_, rfl⟩⟩
    · exact ⟨fun _ => by tauto, fun _ => ⟨_, rfl⟩⟩
    · exact ⟨fun _ => by tauto, fun _ => ⟨_, rfl⟩⟩
    · constructor
      · rintro ⟨e, he⟩
        cases he
      · intro h
        push_neg at h1
        rcases h with h | h | h | h
        · exact absurd h h1.1
        · exact absurd h h1.2
        · exact absurd h h2
        · exact absurd h h3
  · intro col hk hc hs ht
    unfold configValidate
    rw [if_neg, if_neg, if_neg]
    · exact List.ne_nil_of_mem hc
    · exact List.ne_nil_of_mem hk
    · rintro (h | h)
      · exact hs h
      · exact ht h

/-- A successful `reconcile` call returns exactly the core result. -/
theorem reconcile_ok_inv (parse : String → String → Option Int)
    (raises : String → List Value → Bool)
    (cfg : ReconciliationConfig) (s t : DF) (r : ReconciliationResult)
    (h : reconcile parse raises cfg s t = .ok r) :
    r = reconcileCore parse raises cfg s t := by
  unfold reconcile at h
  cases hv : validate_dataframes cfg s t with
  | error e => rw [hv] at h; cases h
  | ok u =>
      rw [hv] at h
      cases h
      rfl

/-- C4: the composite-key partition computed by `reconcile` — the
matched keys and unmatched-source keys are disjoint and together are
exactly the source composite-key set; likewise for the target side; and
the cardinalities add up. -/
theorem reconcile_partition (parse : String → String → Option Int)
    (raises : String → List Value → Bool)
    (cfg : ReconciliationConfig) (s t : DF) (r : ReconciliationResult)
    (h : reconcile parse raises cfg s t = .ok r) :
    Disjoint r.matchedKeys r.unmatchedSourceKeys ∧
    r.matchedKeys ∪ r.unmatchedSourceKeys = keySet parse raises cfg s ∧
    Disjoint r.matchedKeys r.unmatchedTargetKeys ∧
    r.matchedKeys ∪ r.unmatchedTargetKeys = keySet parse raises cfg t ∧
    r.matchedKeys.card + r.unmatchedSourceKeys.card = (keySet parse raises cfg s).card := by
  rw [reconcile_ok_inv parse raises cfg s t r h]
  simp only [reconcileCore, keySet]
  refine ⟨?_, ?_, ?_, ?_, ?_⟩
  · exact (Finset.disjoint_sdiff_inter _ _).symm
  · rw [Finset.union_comm]
    exact Finset.sdiff_union_inter _ _
  · rw [Finset.inter_comm]
    exact (Finset.disjoint_sdiff_inter _ _).symm
  · rw [Finset.inter_comm, Finset.union_comm]
    exact Finset.sdiff_union_inter _ _
  · exact Finset.card_inter_add_card_sdiff _ _

/-- A trivial parser standing for `pd.to_datetime` when no date format
is configured (it is never consulted in that case). -/
def parse0 : String → String → Option Int := fun _ _ => none

/-- A library in which no `pd.to_datetime` call raises. -/
def raises0 : String → List Value → Bool := fun _ _ => false

/-- A concrete configuration for evaluating `reconcile`. -/
def cfg0 : ReconciliationConfig :=
  { source_name := "system_a", target_name := "system_b",
    key_columns := ["id"], compare_columns := ["amount"] }

/-- A concrete two-row source dataset. -/
def src0 : DF :=
  ⟨["id", "amount"], [],
    [[("id", .num 1), ("amount", .num 100)],
     [("id", .num 2), ("amount", .num 5)]]⟩

/-- A concrete one-row target dataset. -/
def tgt0 : DF :=
  ⟨["id", "amount"], [], [[("id", .num 1), ("amount", .num 100)]]⟩

/-- Witness for C4 at the concrete datasets `src0`, `tgt0`. -/
theorem reconcile_partition_witness :
    Disjoint (reconcileCore parse0 raises0 cfg0 src0 tgt0).matchedKeys
        (reconcileCore parse0 raises0 cfg0 src0 tgt0).unmatchedSourceKeys ∧
    (reconcileCore parse0 raises0 cfg0 src0 tgt0).matchedKeys ∪
        (reconcileCore parse0 raises0 cfg0 src0 tgt0).unmatchedSourceKeys =
      keySet parse0 raises0 cfg0 src0 ∧
    Disjoint (reconcileCore parse0 raises0 cfg0 src0 tgt0).matchedKeys
        (reconcileCore parse0 raises0 cfg0 src0 tgt0).unmatchedTargetKeys ∧
    (reconcileCore parse0 raises0 cfg0 src0 tgt0).matchedKeys ∪
        (reconcileCore parse0 raises0 cfg0 src0 tgt0).unmatchedTargetKeys =
      keySet parse0 raises0 cfg0 tgt0 ∧
    (reconcileCore parse0 raises0 cfg0 src0 tgt0).matchedKeys.card +
        (reconcileCore parse0 raises0 cfg0 src0 tgt0).unmatchedSourceKeys.card =
      (keySet parse0 raises0 cfg0 src0).card :=
  reconcile_partition parse0 raises0 cfg0 src0 tgt0
    (reconcileCore parse0 raises0 cfg0 src0 tgt0) rfl

/-- Witness for C5: a config whose `id` column is both a key column and
a compare column validates successfully. -/
theorem configValidate_witness :
    configValidate
        { source_name := "system_a", target_name := "system_b",
          key_columns := ["id"], compare_columns := ["id", "amount"] } =
      .ok { source_name := "system_a", target_name := "system_b",
            key_columns := ["id"], compare_columns := ["id", "amount"] } :=
  (configValidate_rejects_iff _).2 "id" (by decide) (by decide)
    (by decide) (by decide)

/-- The number of compare columns on which the first matched source row
and the first matched target row for `key` disagree — one mismatch
record per disagreeing column of one matched pair. -/
def mismatchColsCount (cfg : ReconciliationConfig)
    (sNormPairs tNormPairs : List (Row × String)) (key : String) : Nat :=
  (cfg.compare_columns.filter (fun col =>
    !(compare_values cfg.tolerance
        (cellOf (firstRowWithKey sNormPairs key) col)
        (cellOf (firstRowWithKey tNormPairs key) col) col).1)).length

/-- The total mismatch-record count of a reconciliation run: one record
per disagreeing compare column per matched composite key. -/
def mismatchRecordCount (parse : String → String → Option Int)
    (raises : String → List Value → Bool)
    (cfg : ReconciliationConfig) (s t : DF) : Nat :=
  ∑ key in keySet parse raises cfg s ∩ keySet parse raises cfg t,
    mismatchColsCount cfg
      ((normalize_data parse raises cfg s).rows.zip (keyList parse raises cfg s))
      ((normalize_data parse raises cfg t).rows.zip (keyList parse raises cfg t)) key

/-- Dropping the `none` branches of a guarded `filterMap` counts the
guard failures. -/
theorem length_filterMap_if {α β : Type} (l : List α) (c : α → Bool) (g : α → β) :
    (l.filterMap (fun a => if c a then none else some (g a))).length
      = (l.filter (fun a => !c a)).length := by
  induction l with
  | nil => rfl
  | cons x xs ih =>
      by_cases h : c x <;>
        simp [List.filterMap_cons, List.filter_cons, h, ih]

/-- The mismatch records one key contributes are counted by
`mismatchColsCount`. -/
theorem mismatchesForKey_length (cfg : ReconciliationConfig)
    (sN tN sO tO : List (Row × String)) (key : String) :
    (mismatchesForKey cfg sN tN sO tO key).length = mismatchColsCount cfg sN tN key := by
  unfold mismatchesForKey mismatchColsCount
  exact length_filterMap_if _ _ _

/-- The length of a `flatMap` over a sorted finite set is the sum of the
lengths over the set. -/
theorem sort_flatMap_length {β : Type} (s : Finset String) (f : String → List β) :
    ((s.sort (· ≤ ·)).flatMap f).length = ∑ k in s, (f k).length := by
  rw [List.length_flatMap]
  have hp : List.Perm ((s.sort (· ≤ ·)).map (List.length ∘ f))
      (s.toList.map (List.length ∘ f)) := (Finset.sort_perm_toList _ s).map _
  rw [hp.sum_eq, Finset.sum_eq_multiset_sum]
  show ((s.val.toList).map _).sum = _
  conv_rhs => rw [← Multiset.coe_toList s.val]
  rw [Multiset.map_coe, Multiset.sum_coe]
  rfl

/-- The mismatch list built by `reconcileCore` has exactly
`mismatchRecordCount` records. -/
theorem reconcileCore_mismatches_length (parse : String → String → Option Int)
    (raises : String → List Value → Bool)
    (cfg : ReconciliationConfig) (s t : DF) :
    (reconcileCore parse raises cfg s t).mismatches.length
      = mismatchRecordCount parse raises cfg s t := by
  unfold reconcileCore mismatchRecordCount
  rw [sort_flatMap_length]
  exact Finset.sum_congr rfl (fun k _ => mismatchesForKey_length _ _ _ _ _ _)

/-- C9: the summary rates of `reconcile` — `match_rate` is the matched
share of distinct source composite keys (times 100), and
`accuracy_rate` is `(matched − mismatchRecords) / max(matched, 1) × 100`
where the mismatch-record count has one record per disagreeing compare
column per matched pair. -/
theorem reconcile_rates (parse : String → String → Option Int)
    (raises : String → List Value → Bool)
    (cfg : ReconciliationConfig) (s t : DF) (r : ReconciliationResult)
    (h : reconcile parse raises cfg s t = .ok r) :
    r.summary.match_rate =
      (r.matchedKeys.card : ℚ) / (max (keySet parse raises cfg s).card 1 : ℚ) * 100 ∧
    r.summary.accuracy_rate =
      ((r.matchedKeys.card : ℚ) - (mismatchRecordCount parse raises cfg s t : ℚ)) /
        (max r.matchedKeys.card 1 : ℚ) * 100 := by
  rw [reconcile_ok_inv parse raises cfg s t r h]
  constructor
  · rfl
  · show (if 0 < ((keySet parse raises cfg s) ∩ (keySet parse raises cfg t)).card then _ else (0 : ℚ)) = _
    have hm : (reconcileCore parse raises cfg s t).mismatches.length
        = mismatchRecordCount parse raises cfg s t :=
      reconcileCore_mismatches_length parse raises cfg s t
    by_cases hc : 0 < ((keySet parse raises cfg s) ∩ (keySet parse raises cfg t)).card
    · rw [if_pos hc]
      rw [show (reconcileCore parse raises cfg s t).matchedKeys
            = (keySet parse raises cfg s) ∩ (keySet parse raises cfg t) from rfl]
      rw [← hm]
      rfl
    · rw [if_neg hc]
      have hzero : ((keySet parse raises cfg s) ∩ (keySet parse raises cfg t)).card = 0 :=
        Nat.eq_zero_of_not_pos hc
      have hempty : (keySet parse raises cfg s) ∩ (keySet parse raises cfg t) = ∅ :=
        Finset.card_eq_zero.mp hzero
      have hmk : (reconcileCore parse raises cfg s t).matchedKeys
          = (keySet parse raises cfg s) ∩ (keySet parse raises cfg t) := rfl
      rw [hmk, hempty]
      rw [show mismatchRecordCount parse raises cfg s t
            = ∑ key in keySet parse raises cfg s ∩ keySet parse raises cfg t,
                mismatchColsCount cfg
                  ((normalize_data parse raises cfg s).rows.zip (keyList parse raises cfg s))
                  ((normalize_data parse raises cfg t).rows.zip (keyList parse raises cfg t)) key
          from rfl, hempty]
      simp

/-- Witness for C9 at the concrete datasets `src0`, `tgt0`. -/
theorem reconcile_rates_witness :
    (reconcileCore parse0 raises0 cfg0 src0 tgt0).summary.match_rate =
      ((reconcileCore parse0 raises0 cfg0 src0 tgt0).matchedKeys.card : ℚ) /
        (max (keySet parse0 raises0 cfg0 src0).card 1 : ℚ) * 100 ∧
    (reconcileCore parse0 raises0 cfg0 src0 tgt0).summary.accuracy_rate =
      (((reconcileCore parse0 raises0 cfg0 src0 tgt0).matchedKeys.card : ℚ) -
          (mismatchRecordCount parse0 raises0 cfg0 src0 tgt0 : ℚ)) /
        (max (reconcileCore parse0 raises0 cfg0 src0 tgt0).matchedKeys.card 1 : ℚ) * 100 :=
  reconcile_rates parse0 raises0 cfg0 src0 tgt0
    (reconcileCore parse0 raises0 cfg0 src0 tgt0) rfl

/-- A configuration with a date format set and the text transformations
disabled, isolating the date-parsing step of `normalize_data`. -/
def cfgDate : ReconciliationConfig :=
  { source_name := "system_a", target_name := "system_b",
    key_columns := ["id"], compare_columns := ["d"],
    ignore_case := false, trim_whitespace := false,
    date_format := some "%Y-%m-%d" }

/-- A parser under which no string parses — e.g. format `%Y-%m-%d`
applied to a column of non-date text. -/
def parseFail : String → String → Option Int := fun _ _ => none

/-- A one-row dataset whose text column holds a value that does not
parse under the configured date format. -/
def dfDate : DF := ⟨["d"], ["d"], [[("d", Value.str "notadate")]]⟩

/-- Counterexample to C1 as stated: with a date format configured and a
`pd.to_datetime` call that completes (does not raise), a text value
that fails to parse is NOT left as-is — `errors='coerce'` replaces it
with a null (`NaT`), so the column's original value is not preserved. -/
theorem normalize_data_coerce_counterexample :
    (normalize_data parseFail raises0 cfgDate dfDate).rows = [[("d", Value.null)]] ∧
    dfDate.rows = [[("d", Value.str "notadate")]] ∧
    [[("d", Value.null)]] ≠ [[("d", Value.str "notadate")]] := by
  refine ⟨?_, rfl, by decide⟩
  rfl

/-- Lookup through an entry-wise map that preserves every key and fixes
every entry carrying the looked-up key. -/
theorem lookup_map_entry (t : Row) (f : String × Value → String × Value) (c : String)
    (hkey : ∀ p, (f p).1 = p.1) (hfix : ∀ p, p.1 = c → f p = p) :
    (t.map f).lookup c = t.lookup c := by
  induction t with
  | nil => rfl
  | cons p t ih =>
      by_cases hc : c = p.1
      · have hfp := hfix p hc.symm
        simp [List.lookup, hfp, hc]
      · have hb1 : (c == p.1) = false := by simpa using hc
        have hb2 : (c == (f p).1) = false := by rw [hkey p]; exact hb1
        simp [List.lookup, hb1, hb2, ih]

/-- Reading one column is unaffected by an entry-wise map of the rows
that preserves every key and fixes the entries of that column. -/
theorem colCells_map_rows (rows : List Row) (f : String × Value → String × Value)
    (c : String) (hkey : ∀ p, (f p).1 = p.1) (hfix : ∀ p, p.1 = c → f p = p) :
    colCells (rows.map (fun r => r.map f)) c = colCells rows c := by
  unfold colCells
  rw [List.map_map]
  apply List.map_congr_left
  intro r _
  show cellOf (r.map f) c = cellOf r c
  unfold cellOf
  rw [lookup_map_entry r f c hkey hfix]

/-- C1 (amended): with a date-parsing format set, normalization
attempts to parse every text-typed column under that format and never
propagates an error; per column, either the whole `pd.to_datetime`
call raises — the bare `except: pass` then leaves the column's values
as-is (unchanged from the trim/lower-case step) — or the call
completes and every cell is coerced: a value that fails to parse
becomes null (it is not preserved), and every cell of the column ends
up a parsed date or null. -/
theorem normalize_data_date_cells (parse : String → String → Option Int)
    (raises : String → List Value → Bool)
    (cfg : ReconciliationConfig) (df : DF) (fmt : String)
    (hf : cfg.date_format = some fmt) (hne : fmt ≠ "") :
    (∀ r ∈ (normalize_data parse raises cfg df).rows, ∀ p ∈ r,
      p.1 ∈ df.textCols →
      raises fmt (colCells (textStepRows cfg df) p.1) = false →
      p.2 = Value.null ∨ ∃ d, p.2 = Value.date d) ∧
    (∀ c, raises fmt (colCells (textStepRows cfg df) c) = true →
      colCells (normalize_data parse raises cfg df).rows c
        = colCells (textStepRows cfg df) c) := by
  have hDateCoerce : ∀ (pf : String → Option Int) (v : Value),
      dateCoerce pf v = Value.null ∨ ∃ d, dateCoerce pf v = Value.date d := by
    intro pf v
    cases v with
    | str s =>
        cases hps : pf s with
        | none => left; simp [dateCoerce, hps]
        | some d => right; exact ⟨d, by simp [dateCoerce, hps]⟩
    | null => left; rfl
    | num q => left; rfl
    | date d => right; exact ⟨d, rfl⟩
    | bool b => left; rfl
  have hrw : (normalize_data parse raises cfg df).rows
      = (textStepRows cfg df).map (fun r => r.map (fun p =>
          if p.1 ∈ df.textCols &&
              !raises fmt (colCells (textStepRows cfg df) p.1) then
            (p.1, dateCoerce (parse fmt) p.2)
          else p)) := by
    unfold normalize_data
    rw [hf]
    exact if_neg hne
  constructor
  · intro r hr p hp hmem hnr
    rw [hrw] at hr
    simp only [List.mem_map] at hr
    obtain ⟨r0, _, rfl⟩ := hr
    simp only [List.mem_map] at hp
    obtain ⟨p0, _, rfl⟩ := hp
    by_cases hcond : (p0.1 ∈ df.textCols &&
        !raises fmt (colCells (textStepRows cfg df) p0.1)) = true
    · rw [if_pos hcond]
      exact hDateCoerce _ _
    · rw [if_neg hcond] at hmem hnr
      refine absurd ?_ hcond
      rw [hnr]
      simp [hmem]
  · intro c hrc
    rw [hrw]
    refine colCells_map_rows _ _ c ?_ ?_
    · intro p
      by_cases hcond : (p.1 ∈ df.textCols &&
          !raises fmt (colCells (textStepRows cfg df) p.1)) = true
      · rw [if_pos hcond]
      · rw [if_neg hcond]
    · intro p hpc
      have hpr : raises fmt (colCells (textStepRows cfg df) p.1) = true := by
        rw [hpc]
        exact hrc
      rw [hpr]
      simp

/-- A parser that accepts exactly the ISO string `2024-01-02`. -/
def parseIso : String → String → Option Int :=
  fun _ s => if s = "2024-01-02" then some 19724 else none

/-- A one-row dataset whose text column holds a parseable date string. -/
def dfDate2 : DF := ⟨["d"], ["d"], [[("d", Value.str "2024-01-02")]]⟩

/-- Witness for C1 (amended) at a concrete parseable cell under a
non-raising `pd.to_datetime`. -/
theorem normalize_data_date_cells_witness :
    Value.date 19724 = Value.null ∨ ∃ d, Value.date 19724 = Value.date d :=
  (normalize_data_date_cells parseIso raises0 cfgDate dfDate2 "%Y-%m-%d"
      rfl (by decide)).1
    [("d", Value.date 19724)] (by decide) ("d", Value.date 19724)
    (by decide) (by decide) (by decide)

/-- Counterexample to C8 as stated: reversing the key-column order does
not change the composite key on a row whose two key values stringify
identically — the orders differ but both keys are `1|1`. -/
theorem create_composite_key_order_counterexample :
    (["a", "b"] : List String) ≠ ["b", "a"] ∧
    create_composite_key ["a", "b"] [("a", Value.str "1"), ("b", Value.str "1")] =
      create_composite_key ["b", "a"] [("a", Value.str "1"), ("b", Value.str "1")] := by
  refine ⟨by decide, ?_⟩
  rfl

/-- C8 (amended): the composite key is a deterministic function of the
key-column values in key-column order — rows agreeing on every key
column produce identical keys — and it is order-sensitive in that
reordering the key columns can change the key (though rows whose
reordered values join to the same string keep the same key). -/
theorem create_composite_key_props :
    (∀ (key_columns : List String) (r1 r2 : Row),
      (∀ c ∈ key_columns, cellOf r1 c = cellOf r2 c) →
      create_composite_key key_columns r1 = create_composite_key key_columns r2) ∧
    (∃ (kc kc' : List String) (r : Row), List.Perm kc kc' ∧
      create_composite_key kc r ≠ create_composite_key kc' r) := by
  constructor
  · intro kc r1 r2 h
    unfold create_composite_key
    congr 1
    exact List.map_congr_left (fun c hc => by rw [h c hc])
  · refine ⟨["a", "b"], ["b", "a"], [("a", .str "x"), ("b", .str "y")], by decide, ?_⟩
    decide

/-- Witness for C8 (amended): two concrete rows agreeing on the key
column produce the same composite key. -/
theorem create_composite_key_props_witness :
    create_composite_key ["id"] [("id", Value.num 7)] =
      create_composite_key ["id"] [("id", Value.num 7), ("x", Value.null)] :=
  create_composite_key_props.1 ["id"] _ _ (by decide)

/-- Counterexample to C6 as stated: a column inferred as `id` with a
duplicate-value issue raised is still recommended as a key (the `id`
branch returns before the duplicate-issue check), contradicting the
claim that any column with a duplicate-value issue is rejected. -/
theorem recommend_for_key_dup_id_counterexample :
    profileRecommended "id" 0 99 ["Duplicate values: 1 (expected unique)"] = true ∧
    ["Duplicate values: 1 (expected unique)"].any
      (fun issue => strContains issue "Duplicate") = true := by
  constructor
  · unfold profileRecommended _recommend_for_key
    rw [if_neg, if_neg, if_pos rfl]
    · norm_num
    · rintro (ha | hb)
      · exact ha (by norm_num)
      · exact absurd hb (by norm_num)
  · decide

/-- C6 (amended): the key-suitability flag is set iff the distinct
ratio is at least 95%, the null percentage is at most 5%, and the
inferred type is `id`, or is `text` with zero detected issues, or is
any other type with no duplicate-value issue; in particular a non-`id`,
non-`text` column with a duplicate-value issue is rejected and a `text`
column carrying any issue is rejected, but an `id` column is accepted
even when a duplicate-value issue was raised. -/
theorem recommend_for_key_iff (inferred_type : String) (null_pct unique_pct : ℚ)
    (issues : List String) :
    profileRecommended inferred_type null_pct unique_pct issues = true ↔
      (95 ≤ unique_pct ∧ null_pct ≤ 5 ∧
        (inferred_type = "id" ∨
          (inferred_type = "text" ∧ issues = []) ∨
          (inferred_type ≠ "id" ∧ inferred_type ≠ "text" ∧
            issues.any (fun issue => strContains issue "Duplicate") = false))) := by
  unfold profileRecommended _recommend_for_key
  split_ifs with h1 h2 h3 h4 h5
  · constructor
    · intro hf; cases hf
    · rintro ⟨hup, _⟩
      rcases h1 with hng | hlt
      · exact absurd (by simpa using (le_trans (by norm_num) hup)) hng
      · exact absurd hup (not_le.mpr hlt)
  · constructor
    · intro hf; cases hf
    · rintro ⟨_, hnp, _⟩
      exact absurd hnp (not_le.mpr h2)
  · push_neg at h1
    constructor
    · intro _
      exact ⟨h1.2, not_lt.mp h2, Or.inl h3⟩
    · intro _; rfl
  · push_neg at h1
    constructor
    · intro hf; cases hf
    · rintro ⟨_, _, hcase⟩
      rcases hcase with hid | ⟨htext, hiss⟩ | ⟨_, hnt, _⟩
      · exact absurd hid h3
      · rw [hiss] at h4
        exact absurd h4.2 (by simp)
      · exact absurd h4.1 hnt
  · push_neg at h1
    constructor
    · intro hf; cases hf
    · rintro ⟨_, _, hcase⟩
      rcases hcase with hid | ⟨htext, hiss⟩ | ⟨_, _, hdup⟩
      · exact absurd hid h3
      · rw [hiss] at h5
        exact absurd h5 (by simp)
      · rw [hdup] at h5
        exact absurd h5 (by simp)
  · push_neg at h1
    constructor
    · intro _
      refine ⟨h1.2, not_lt.mp h2, ?_⟩
      by_cases ht : inferred_type = "text"
      · refine Or.inr (Or.inl ⟨ht, ?_⟩)
        rcases List.eq_nil_or_concat issues with hnil | ⟨l, a, rfl⟩
        · exact hnil
        · exact absurd ⟨ht, by simp⟩ h4
      · exact Or.inr (Or.inr ⟨h3, ht, by simpa using h5⟩)
    · intro _; rfl

/-- A key present among an association list's keys has a successful
lookup. -/
theorem lookup_isSome_of_mem {α β : Type} [DecidableEq α] (l : List (α × β)) (c : α)
    (h : c ∈ l.map Prod.fst) : (l.lookup c).isSome = true := by
  induction l with
  | nil => simp at h
  | cons x xs ih =>
      simp only [List.map_cons, List.mem_cons] at h
      by_cases hx : c = x.1
      · simp [List.lookup, hx]
      · have hxs : c ∈ xs.map Prod.fst := by
          rcases h with h | h
          · exact absurd h hx
          · exact h
        have hbeq : (c == x.1) = false := by simpa using hx
        simpa [List.lookup, hbeq] using ih hxs

/-- A common column is among the target profile's columns. -/
theorem mem_target_of_mem_common (sp tp : DatasetProfile) (c : String)
    (h : c ∈ commonCols sp tp) : c ∈ tp.column_profiles.map Prod.fst := by
  unfold commonCols at h
  simp only [List.mem_filter, decide_eq_true_eq] at h
  exact h.2

/-- The head of a filtered list is the first element satisfying the
predicate. -/
theorem filter_head?_eq_find? {α : Type} (l : List α) (p : α → Bool) :
    (l.filter p).head? = l.find? p := by
  induction l with
  | nil => rfl
  | cons x xs ih => by_cases h : p x <;> simp [List.filter_cons, List.find?_cons, h, ih]

/-- On candidate keys, the guarded validity test of
`suggest_reconciliation_strategy` coincides with the unguarded one: a
candidate is valid iff each of its columns is common and above 90%
distinct in the target profile. -/
theorem validKeyFilter_congr (sp tp : DatasetProfile) :
    sp.candidate_key_columns.filter (fun source_key =>
        source_key.all (fun col => col ∈ commonCols sp tp) &&
        source_key.all (fun col =>
          if (tp.column_profiles.lookup col).isSome then
            decide (uniquePctOf tp.column_profiles col > 90)
          else true))
      = sp.candidate_key_columns.filter (fun source_key =>
          source_key.all (fun col =>
            decide (col ∈ commonCols sp tp) &&
            decide (uniquePctOf tp.column_profiles col > 90))) := by
  apply List.filter_congr
  intro k _
  rw [Bool.eq_iff_iff]
  simp only [Bool.and_eq_true, List.all_eq_true, decide_eq_true_eq]
  constructor
  · rintro ⟨hmem, hpct⟩ col hcol
    refine ⟨hmem col hcol, ?_⟩
    have hs := lookup_isSome_of_mem tp.column_profiles col
      (mem_target_of_mem_common sp tp col (hmem col hcol))
    have h2 := hpct col hcol
    rw [if_pos hs] at h2
    exact of_decide_eq_true h2
  · intro hall
    refine ⟨fun col hcol => (hall col hcol).1, fun col hcol => ?_⟩
    have hs := lookup_isSome_of_mem tp.column_profiles col
      (mem_target_of_mem_common sp tp col (hall col hcol).1)
    rw [if_pos hs]
    exact decide_eq_true (hall col hcol).2

/-- C7: for profiles with at least one common column, the recommended
key is the first stored source candidate all of whose columns are
common with target distinct-ratio above 90%; failing that, a singleton
of the first common column above 80% distinct in both profiles;
failing that, empty. -/
theorem suggest_key_selection (sp tp : DatasetProfile) (st : Strategy)
    (h : suggest_reconciliation_strategy sp tp = .ok st) :
    st.recommended_key_columns =
      match sp.candidate_key_columns.find? (fun source_key =>
        source_key.all (fun col =>
          decide (col ∈ commonCols sp tp) &&
          decide (uniquePctOf tp.column_profiles col > 90))) with
      | some k => k
      | none =>
          match (commonCols sp tp).find? (fun col =>
            decide (uniquePctOf sp.column_profiles col > 80) &&
            decide (uniquePctOf tp.column_profiles col > 80)) with
          | some c => [c]
          | none => [] := by
  have hkey : st.recommended_key_columns
      = selectRecommendedKey sp tp (commonCols sp tp) := by
    unfold suggest_reconciliation_strategy at h
    by_cases hc : commonCols sp tp = []
    · rw [if_pos hc] at h; cases h
    · rw [if_neg hc] at h
      cases h
      rfl
  rw [hkey]
  unfold selectRecommendedKey
  rw [validKeyFilter_congr]
  cases hf : sp.candidate_key_columns.find? (fun source_key =>
      source_key.all (fun col =>
        decide (col ∈ commonCols sp tp) &&
        decide (uniquePctOf tp.column_profiles col > 90))) with
  | some k =>
      have hh : (sp.candidate_key_columns.filter (fun source_key =>
          source_key.all (fun col =>
            decide (col ∈ commonCols sp tp) &&
            decide (uniquePctOf tp.column_profiles col > 90)))).head? = some k := by
        rw [filter_head?_eq_find?, hf]
      cases hl : sp.candidate_key_columns.filter (fun source_key =>
          source_key.all (fun col =>
            decide (col ∈ commonCols sp tp) &&
            decide (uniquePctOf tp.column_profiles col > 90))) with
      | nil => rw [hl] at hh; cases hh
      | cons a t =>
          rw [hl] at hh
          cases hh
          rfl
  | none =>
      have hh : (sp.candidate_key_columns.filter (fun source_key =>
          source_key.all (fun col =>
            decide (col ∈ commonCols sp tp) &&
            decide (uniquePctOf tp.column_profiles col > 90)))).head? = none := by
        rw [filter_head?_eq_find?, hf]
      rw [List.head?_eq_none_iff.mp hh]
      cases hg : (commonCols sp tp).find? (fun col =>
          decide (uniquePctOf sp.column_profiles col > 80) &&
          decide (uniquePctOf tp.column_profiles col > 80)) with
      | some c =>
          have hh2 : ((commonCols sp tp).filter (fun col =>
              decide (uniquePctOf sp.column_profiles col > 80) &&
              decide (uniquePctOf tp.column_profiles col > 80))).head? = some c := by
            rw [filter_head?_eq_find?, hg]
          cases hl2 : (commonCols sp tp).filter (fun col =>
              decide (uniquePctOf sp.column_profiles col > 80) &&
              decide (uniquePctOf tp.column_profiles col > 80)) with
          | nil => rw [hl2] at hh2; cases hh2
          | cons a t =>
              rw [hl2] at hh2
              cases hh2
              rfl
      | none =>
          have hh2 : ((commonCols sp tp).filter (fun col =>
              decide (uniquePctOf sp.column_profiles col > 80) &&
              decide (uniquePctOf tp.column_profiles col > 80))).head? = none := by
            rw [filter_head?_eq_find?, hg]
          rw [List.head?_eq_none_iff.mp hh2]

/-- A concrete source profile: an `id` key candidate and one numeric
column. -/
def spC7 : DatasetProfile :=
  ⟨[("id", ⟨0, 100, "id", []⟩), ("amt", ⟨0, 50, "numeric", []⟩)], [["id"]]⟩

/-- A concrete target profile sharing both columns, `id` fully
distinct. -/
def tpC7 : DatasetProfile :=
  ⟨[("id", ⟨0, 100, "id", []⟩), ("amt", ⟨0, 50, "numeric", []⟩)], [["id"]]⟩

/-- The strategy the advisor computes for `spC7`/`tpC7`. -/
def stC7 : Strategy := ⟨["id"], ["amt"], []⟩

/-- Witness for C7 at the concrete profiles `spC7`, `tpC7`. -/
theorem suggest_key_selection_witness :
    stC7.recommended_key_columns =
      match spC7.candidate_key_columns.find? (fun source_key =>
        source_key.all (fun col =>
          decide (col ∈ commonCols spC7 tpC7) &&
          decide (uniquePctOf tpC7.column_profiles col > 90))) with
      | some k => k
      | none =>
          match (commonCols spC7 tpC7).find? (fun col =>
            decide (uniquePctOf spC7.column_profiles col > 80) &&
            decide (uniquePctOf tpC7.column_profiles col > 80)) with
          | some c => [c]
          | none => [] :=
  suggest_key_selection spC7 tpC7 stC7 rfl

/-- A profile with an `id` key column and eleven compare candidates,
the last of which (`c11`) is a `numeric_amount` column. -/
def colsC10 : List (String × ColumnProfile) :=
  [("id", ⟨0, 100, "id", []⟩),
   ("c01", ⟨0, 50, "numeric", []⟩), ("c02", ⟨0, 50, "numeric", []⟩),
   ("c03", ⟨0, 50, "numeric", []⟩), ("c04", ⟨0, 50, "numeric", []⟩),
   ("c05", ⟨0, 50, "numeric", []⟩), ("c06", ⟨0, 50, "numeric", []⟩),
   ("c07", ⟨0, 50, "numeric", []⟩), ("c08", ⟨0, 50, "numeric", []⟩),
   ("c09", ⟨0, 50, "numeric", []⟩), ("c10", ⟨0, 50, "numeric", []⟩),
   ("c11", ⟨0, 50, "numeric_amount", []⟩)]

/-- Source profile for the tolerance-beyond-cap scenario. -/
def spC10 : DatasetProfile := ⟨colsC10, [["id"]]⟩

/-- Target profile for the tolerance-beyond-cap scenario. -/
def tpC10 : DatasetProfile := ⟨colsC10, [["id"]]⟩

/-- The strategy computed for `spC10`/`tpC10`: the compare list is
capped at the first 10 candidates (dropping `c11`) while the tolerance
mapping, built from the uncapped candidate list, still contains `c11`. -/
def stC10 : Strategy :=
  ⟨["id"],
   ["c01", "c02", "c03", "c04", "c05", "c06", "c07", "c08", "c09", "c10"],
   [("c11", (1 : ℚ) / 100)]⟩

/-- C10: the advisor assigns tolerances while iterating the full,
uncapped compare-candidate list, but truncates the recommended
compare-column list to the first 10 candidates — so with eleven
candidates whose eleventh is a `numeric_amount` column, the tolerance
mapping contains a column absent from the recommended compare list. -/
theorem suggest_tolerance_beyond_cap :
    suggest_reconciliation_strategy spC10 tpC10 = .ok stC10 ∧
    ("c11", (1 : ℚ) / 100) ∈ stC10.recommended_tolerance ∧
    "c11" ∉ stC10.recommended_compare_columns ∧
    stC10.recommended_compare_columns.length = 10 := by
  refine ⟨rfl, List.Mem.head _, ?_, rfl⟩
  decide

end FinSight
